import Mathlib

/-!
Verification of the credit / payment-reconciliation state machine of
`src/backend/server.py` (rob01-web/app).

The MongoDB collections (`users`, `properties`, `analyses`,
`payment_transactions`) are embedded as lists of records inside a state
`St`; each `await`-ed database operation of the Python source becomes one
atomic transformation of `St`.  External collaborators (the LLM calls,
the PDF builder, the Stripe client) are parameterized by their observable
outcome, translated from the source's own handling of those outcomes.
Every endpoint becomes a pure function from a state (plus the external
outcomes and the freshly drawn uuids) to a response and a successor state.

Concurrent request handling is modelled by decomposing each endpoint at
its `await` suspension points: a handler's reads produce a snapshot, and
the continuation after a suspension point is a separate function applied
to whatever state holds when the handler resumes.  Sequential execution
of an endpoint is, by definition, the composition of its phases on one
unchanged state, which is exactly the straight-line Python code.
-/

/-- A JSON-like value, standing for the Python dict/str/number values that
flow out of `json.loads` in `parse_property_data` / `generate_analysis`
(server.py lines 147-279) and into `generate_pdf_report`. -/
inductive JVal where
  | str (s : String)
  | num (n : Int)
  | dict (fields : List (String × JVal))
  | arr (items : List JVal)

/-- Python truthiness of a `JVal`, as used by the source's
`if prop_overview:` / `if fin_analysis:` / `if recommendation:` tests
(server.py lines 361, 369, 396): empty strings, zero, empty dicts and
empty lists are falsy. -/
def pyTruthy : JVal → Bool
  | JVal.str s => !s.isEmpty
  | JVal.num n => n != 0
  | JVal.dict fields => !fields.isEmpty
  | JVal.arr items => !items.isEmpty

/-- Python `d.get(k)` on a dict: the value at the first occurrence of the
key, if any. -/
def jget (fields : List (String × JVal)) (k : String) : Option JVal :=
  (fields.find? (fun kv => kv.1 == k)).map (fun kv => kv.2)

/-- Python `analysis_data.get(k, {})`: the source's accessor with an empty
dict as default (server.py lines 360, 368, 395). -/
def sectionGet (d : List (String × JVal)) (k : String) : JVal :=
  (jget d k).getD (JVal.dict [])

/-- Observable outcome of one LLM round trip together with the JSON
recovery on its response, mirroring the identical `try/except` cascade in
`parse_property_data` (lines 185-197) and `generate_analysis`
(lines 263-274):
`raises` = the awaited call (or anything before it) raised;
`strictJson` = `json.loads(response)` succeeded;
`extractedJson` = strict parse failed but the regex found a brace-balanced
object that decoded;
`extractRaises` = the regex matched but decoding the match raised (caught
by the outer `except`);
`noMatch` = no brace-balanced object was found in the response text. -/
inductive LlmCall where
  | raises (msg : String)
  | strictJson (d : List (String × JVal))
  | extractedJson (d : List (String × JVal))
  | extractRaises (msg : String)
  | noMatch (raw : String)

/-- `generate_analysis` (server.py lines 204-279).  Its outer
`try/except Exception` means it NEVER raises: every failure of the
external call collapses into the returned dict (`{"error": str(e)}`), and
an unparseable response collapses into `{"raw_analysis": response}`. -/
def generate_analysis : LlmCall → List (String × JVal)
  | LlmCall.raises msg => [("error", JVal.str msg)]
  | LlmCall.strictJson d => d
  | LlmCall.extractedJson d => d
  | LlmCall.extractRaises msg => [("error", JVal.str msg)]
  | LlmCall.noMatch raw => [("raw_analysis", JVal.str raw)]

/-- `parse_property_data` (server.py lines 147-202).  Same shape as
`generate_analysis`: it never raises; exceptions become
`{"error": str(e), "raw_content": "Unable to parse"}` and an unmatched
response becomes the `{"raw_text": content[:1000]}` fallback (the carried
string stands for the truncated file content). -/
def parse_property_data : LlmCall → List (String × JVal)
  | LlmCall.raises msg => [("error", JVal.str msg), ("raw_content", JVal.str "Unable to parse")]
  | LlmCall.strictJson d => d
  | LlmCall.extractedJson d => d
  | LlmCall.extractRaises msg => [("error", JVal.str msg), ("raw_content", JVal.str "Unable to parse")]
  | LlmCall.noMatch raw => [("raw_text", JVal.str raw)]

/-- Whether a section rendered with plain `section.get(...)` accessors
(`property_overview` at line 360, `investment_recommendation` at line 395)
builds without raising: a truthy non-dict value makes the Python
`.get` attribute access raise `AttributeError`, which
`generate_pdf_report` re-raises (line 411). -/
def sectionRenders (v : JVal) : Bool :=
  if pyTruthy v then
    match v with
    | JVal.dict _ => true
    | _ => false
  else true

/-- Whether the financial-analysis table (lines 368-391) builds without
raising.  On a truthy dict the purchase-price f-string applies the comma
format spec to `fin_analysis.get("purchase_price", "N/A")`, which raises
unless the value is an actual number (the "N/A" default, or any string,
raises `ValueError`).  A truthy non-dict raises `AttributeError` on
`.get`. -/
def finRenders (v : JVal) : Bool :=
  if pyTruthy v then
    match v with
    | JVal.dict fd =>
        match jget fd "purchase_price" with
        | some (JVal.num _) => true
        | _ => false
    | _ => false
  else true

/-- `generate_pdf_report` (server.py lines 318-411): builds the document
sections in source order and re-raises any exception (`raise` at
line 411); on success it returns the path of the written PDF.  The title
and executive-summary sections (`.get` with string defaults) cannot
raise and carry no control flow, so only the three guarded sections
appear. -/
def generate_pdf_report (analysis_id : String) (analysis_data : List (String × JVal)) :
    Except String String :=
  if sectionRenders (sectionGet analysis_data "property_overview") then
    if finRenders (sectionGet analysis_data "financial_analysis") then
      if sectionRenders (sectionGet analysis_data "investment_recommendation") then
        Except.ok ("reports/report_" ++ analysis_id ++ ".pdf")
      else Except.error "AttributeError"
    else Except.error "ValueError: cannot format non-number with comma"
  else Except.error "AttributeError"

/-- A document of the `users` collection (fields the core logic reads;
`password_hash` and `created_at` carry no control flow).  The balance is
an `Int` because Mongo's `$inc` has no floor: nothing in the source stops
`available_reports` from going below zero. -/
structure UserRec where
  id : String
  email : String
  name : String
  available_reports : Int

/-- A document of the `properties` collection (server.py lines 487-495). -/
structure PropertyRec where
  id : String
  user_id : String
  property_name : String
  property_type : String
  status : String

/-- A document of the `analyses` collection (server.py lines 533-542). -/
structure Analysis where
  id : String
  user_id : String
  property_id : String
  property_name : String
  analysis_data : List (String × JVal)
  pdf_path : Option String
  status : String

/-- A document of the `payment_transactions` collection (server.py
lines 670-681). -/
structure Txn where
  id : String
  user_id : String
  session_id : String
  package_id : String
  amount : Int
  currency : String
  payment_status : String
  reports_credited : Nat

/-- The persisted state: the four MongoDB collections, in insertion
order (`find_one` returns the first match in that order). -/
structure St where
  users : List UserRec
  properties : List PropertyRec
  analyses : List Analysis
  payment_transactions : List Txn

def emptySt : St :=
  { users := [], properties := [], analyses := [], payment_transactions := [] }

/-- Mongo `update_one`: apply `f` to the first document matching the
filter `p`, leave everything else in place. -/
def updateFirst {α : Type} (p : α → Bool) (f : α → α) : List α → List α
  | [] => []
  | x :: xs => if p x then f x :: xs else x :: updateFirst p f xs

/-- The error responses the endpoints can produce.  `userMissing` and
`keyError` stand for the uncaught `AttributeError` / `KeyError` a
missing document or unknown package id would raise (HTTP 500); they are
unreachable from states the API itself builds. -/
inductive ApiErr where
  | emailTaken
  | invalidPackage
  | noReportsAvailable
  | propertyNotFound
  | transactionNotFound
  | userMissing
  | keyError
deriving DecidableEq

/-- The static `PRICING_PACKAGES` table (server.py lines 57-61); the
amounts are the integral dollar values of the source's float literals. -/
structure Package where
  amount : Int
  reports : Nat
  name : String

def PRICING_PACKAGES : List (String × Package) :=
  [("single", { amount := 499, reports := 1, name := "Single Report" }),
   ("bundle_5", { amount := 2250, reports := 5, name := "5 Report Bundle" }),
   ("bundle_10", { amount := 3990, reports := 10, name := "10 Report Bundle" })]

/-- Python `PRICING_PACKAGES[pid]`; `none` is the `KeyError` case. -/
def pkgLookup (pid : String) : Option Package :=
  (PRICING_PACKAGES.find? (fun kv => kv.1 == pid)).map (fun kv => kv.2)

def findUser (st : St) (uid : String) : Option UserRec :=
  st.users.find? (fun u => u.id == uid)

/-- `db.properties.find_one({"id": property_id, "user_id": current_user.id})`
(server.py line 522). -/
def findProperty (st : St) (uid pid : String) : Option PropertyRec :=
  st.properties.find? (fun p => p.id == pid && p.user_id == uid)

/-- `db.analyses.find_one({"property_id": property_id})` (line 527) —
note: not filtered by user. -/
def findAnalysisByProperty (st : St) (pid : String) : Option Analysis :=
  st.analyses.find? (fun a => a.property_id == pid)

def findAnalysisById (st : St) (aid : String) : Option Analysis :=
  st.analyses.find? (fun a => a.id == aid)

/-- `db.payment_transactions.find_one({"session_id": sid, "user_id": uid})`
(line 690): the status poll's lookup is scoped to the requesting user. -/
def findTxn (st : St) (sid uid : String) : Option Txn :=
  st.payment_transactions.find? (fun t => t.session_id == sid && t.user_id == uid)

/-- `db.payment_transactions.find_one({"session_id": session_id})`
(line 748): the webhook's lookup, scoped only by session. -/
def findTxnBySession (st : St) (sid : String) : Option Txn :=
  st.payment_transactions.find? (fun t => t.session_id == sid)

/-- `db.users.update_one({"id": uid}, {"$inc": {"available_reports": d}})`
(lines 570-573, 720-723, 762-765).  An unconditional increment: no floor,
no compare-and-set. -/
def incReports (st : St) (uid : String) (d : Int) : St :=
  { st with
    users := updateFirst (fun u => u.id == uid)
      (fun u => { u with available_reports := u.available_reports + d }) st.users }

/-- `db.payment_transactions.update_one({"session_id": sid}, {"$set":
{"payment_status": "paid", "reports_credited": n}})` (lines 712-718,
754-760).  The filter is the session id alone — the write carries no
guard on `reports_credited`. -/
def markCredited (st : St) (sid : String) (n : Nat) : St :=
  { st with
    payment_transactions := updateFirst (fun t => t.session_id == sid)
      (fun t => { t with payment_status := "paid", reports_credited := n })
      st.payment_transactions }

/-- `db.analyses.update_one({"id": aid}, {"$set": ...})`. -/
def setAnalysis (st : St) (aid : String) (f : Analysis → Analysis) : St :=
  { st with analyses := updateFirst (fun a => a.id == aid) f st.analyses }

/-- Response of `POST /analysis/generate/...` (server.py lines 529, 579). -/
structure AnalysisResp where
  analysis_id : String
  status : String

/-- The two external LLM outcomes one analysis run consumes. -/
structure AnalysisExternals where
  parseCall : LlmCall
  genCall : LlmCall

/-- The read-and-check prefix of `generate_property_analysis`
(server.py lines 515-529): re-read the user and gate on the balance,
look up the property, look up an existing analysis.  Each `await` here is
a suspension point; the returned pair is the snapshot the rest of the
handler works from. -/
def analysisChecks (st : St) (uid pid : String) :
    Except ApiErr (Option Analysis × PropertyRec) :=
  match findUser st uid with
  | none => Except.error ApiErr.userMissing
  | some u =>
    if u.available_reports ≤ 0 then Except.error ApiErr.noReportsAvailable
    else
      match findProperty st uid pid with
      | none => Except.error ApiErr.propertyNotFound
      | some prop => Except.ok (findAnalysisByProperty st pid, prop)

/-- The write phase of `generate_property_analysis` (server.py
lines 531-579), run when the check phase saw no existing analysis:
insert the `pending` document, set it `generating`, run the three
collaborator steps, then either persist the payload with status
`completed` and decrement the credit, or — only if a step raised — set
status `failed` with no debit.  The HTTP response is built at line 579,
after the whole pipeline, and always says `generating`. -/
def analysisRun (st : St) (uid pid aid pname : String) (ext : AnalysisExternals) :
    AnalysisResp × St :=
  let doc : Analysis :=
    { id := aid, user_id := uid, property_id := pid, property_name := pname,
      analysis_data := [], pdf_path := none, status := "pending" }
  let st1 : St := { st with analyses := st.analyses ++ [doc] }
  let st2 := setAnalysis st1 aid (fun a => { a with status := "generating" })
  let _property_data := parse_property_data ext.parseCall
  let analysis_data := generate_analysis ext.genCall
  match generate_pdf_report aid analysis_data with
  | Except.ok pdf =>
      let st3 := setAnalysis st2 aid
        (fun a => { a with analysis_data := analysis_data, pdf_path := some pdf,
                           status := "completed" })
      ({ analysis_id := aid, status := "generating" }, incReports st3 uid (-1))
  | Except.error _ =>
      ({ analysis_id := aid, status := "generating" },
       setAnalysis st2 aid (fun a => { a with status := "failed" }))

/-- `POST /analysis/generate/...` run sequentially (no interleaving):
the check phase and the write phase see the same state.  `aid` is the
`uuid.uuid4()` drawn at line 532. -/
def generate_property_analysis (st : St) (uid pid aid : String)
    (ext : AnalysisExternals) : Except ApiErr AnalysisResp × St :=
  match analysisChecks st uid pid with
  | Except.error e => (Except.error e, st)
  | Except.ok (some existing, _) =>
      (Except.ok { analysis_id := existing.id, status := existing.status }, st)
  | Except.ok (none, prop) =>
      let r := analysisRun st uid pid aid prop.property_name ext
      (Except.ok r.1, r.2)

/-- Stripe's answer to `get_checkout_status` (server.py line 704). -/
structure CheckoutStatus where
  status : String
  payment_status : String

/-- Response body of `GET /payments/status/...`; `reports_credited` is
present only on the two credited returns (lines 696-700, 725-729). -/
structure PollResp where
  status : String
  payment_status : String
  reports_credited : Option Nat

/-- The continuation of `get_payment_status` after the
`await stripe_checkout.get_checkout_status(session_id)` suspension point
(server.py lines 707-734).  `t` is the transaction snapshot read at
line 690 — the guard at line 707 tests the SNAPSHOT, and the two writes
it protects filter only on the session id / user id, so nothing here
re-checks `reports_credited` against the live state. -/
def pollCommit (st : St) (uid sid : String) (t : Txn) (cs : CheckoutStatus) :
    Except ApiErr PollResp × St :=
  if cs.payment_status = "paid" ∧ t.reports_credited = 0 then
    match pkgLookup t.package_id with
    | none => (Except.error ApiErr.keyError, st)
    | some pkg =>
        let st1 := markCredited st sid pkg.reports
        let st2 := incReports st1 uid (pkg.reports : Int)
        (Except.ok { status := "complete", payment_status := "paid",
                     reports_credited := some pkg.reports }, st2)
  else
    (Except.ok { status := cs.status, payment_status := cs.payment_status,
                 reports_credited := none }, st)

/-- `GET /payments/status/{session_id}` run sequentially (server.py
lines 687-734): look up the transaction scoped to the requesting user
(404 if absent), short-circuit if it is already credited AND locally
marked paid, otherwise ask Stripe (`cs` is its answer) and continue with
`pollCommit` on the unchanged state. -/
def get_payment_status (st : St) (uid sid : String) (cs : CheckoutStatus) :
    Except ApiErr PollResp × St :=
  match findTxn st sid uid with
  | none => (Except.error ApiErr.transactionNotFound, st)
  | some t =>
    if t.payment_status = "paid" ∧ 0 < t.reports_credited then
      (Except.ok { status := "complete", payment_status := "paid",
                   reports_credited := some t.reports_credited }, st)
    else pollCommit st uid sid t cs

/-- A webhook event as `stripe_checkout.handle_webhook` hands it back
after signature verification (server.py line 743). -/
structure WebhookEvent where
  session_id : String
  payment_status : String

/-- Body of the webhook response: the fixed `{"status": "success"}` ack
(line 767) or the 400 raised when processing fails (line 770). -/
inductive WebhookResp where
  | success
  | error400
deriving DecidableEq

/-- The processing block of `stripe_webhook` for a paid event (server.py
lines 747-765): read the transaction by session id alone; if it exists
and its `reports_credited` (as read) is 0, mark it credited and increment
the owner's balance.  A missing transaction is silently skipped.  The
`some ApiErr` result is the `KeyError` an unknown package id would raise
into the surrounding `except`. -/
def webhookCommit (st : St) (sid : String) : Option ApiErr × St :=
  match findTxnBySession st sid with
  | some t =>
      if t.reports_credited = 0 then
        match pkgLookup t.package_id with
        | none => (some ApiErr.keyError, st)
        | some pkg =>
            (none, incReports (markCredited st sid pkg.reports) t.user_id (pkg.reports : Int))
      else (none, st)
  | none => (none, st)

/-- `POST /webhook/stripe` (server.py lines 736-770) on a verified event:
paid events run `webhookCommit`; everything else falls through to the
success ack without touching any state. -/
def stripe_webhook (st : St) (ev : WebhookEvent) : WebhookResp × St :=
  if ev.payment_status = "paid" then
    match webhookCommit st ev.session_id with
    | (some _, st1) => (WebhookResp.error400, st1)
    | (none, st1) => (WebhookResp.success, st1)
  else (WebhookResp.success, st)

/-- `POST /auth/register` (server.py lines 416-445): reject a duplicate
email, otherwise insert the user with `available_reports = 0`. -/
def register (st : St) (uid email name : String) : Except ApiErr Unit × St :=
  match st.users.find? (fun u => u.email == email) with
  | some _ => (Except.error ApiErr.emailTaken, st)
  | none =>
      (Except.ok (),
       { st with users := st.users ++
           [{ id := uid, email := email, name := name, available_reports := 0 }] })

/-- `POST /properties/upload` (server.py lines 470-499): store the file
and insert the property document with status `uploaded`. -/
def upload_property (st : St) (uid pid pname ptype : String) : St :=
  { st with properties := st.properties ++
      [{ id := pid, user_id := uid, property_name := pname,
         property_type := ptype, status := "uploaded" }] }

/-- `POST /payments/checkout` (server.py lines 638-685): validate the
package, create the Stripe session (`sid` is the id Stripe returned),
and insert the pending transaction with `reports_credited = 0`. -/
def create_checkout (st : St) (uid package_id txn_id sid : String) :
    Except ApiErr String × St :=
  match pkgLookup package_id with
  | none => (Except.error ApiErr.invalidPackage, st)
  | some pkg =>
      (Except.ok sid,
       { st with payment_transactions := st.payment_transactions ++
           [{ id := txn_id, user_id := uid, session_id := sid,
              package_id := package_id, amount := pkg.amount, currency := "usd",
              payment_status := "pending", reports_credited := 0 }] })

/-- One sequentially executed API request, with its fresh uuids and
external outcomes baked in. -/
inductive Op where
  | reg (uid email name : String)
  | upload (uid pid pname ptype : String)
  | checkout (uid package_id txn_id sid : String)
  | analyze (uid pid aid : String) (ext : AnalysisExternals)
  | poll (uid sid : String) (cs : CheckoutStatus)
  | webhook (ev : WebhookEvent)

/-- The state transformation of one sequentially executed request. -/
def applyOp (st : St) : Op → St
  | Op.reg uid e n => (register st uid e n).2
  | Op.upload uid pid pn pt => upload_property st uid pid pn pt
  | Op.checkout uid pk ti si => (create_checkout st uid pk ti si).2
  | Op.analyze uid pid aid ext => (generate_property_analysis st uid pid aid ext).2
  | Op.poll uid sid cs => (get_payment_status st uid sid cs).2
  | Op.webhook ev => (stripe_webhook st ev).2

def runOps (st : St) (ops : List Op) : St := ops.foldl applyOp st

/-- States the system can actually be in: whatever a sequence of
(sequentially executed) requests builds from the empty database. -/
def Reachable (st : St) : Prop := ∃ ops : List Op, st = runOps emptySt ops

/-- The §3 User invariant of the spec: no balance is negative. -/
def nonNeg (st : St) : Prop := ∀ u ∈ st.users, 0 ≤ u.available_reports

/-- Payment-transaction coherence: a credited transaction is locally
marked paid (both writes happen in one `$set`). -/
def InvTx (st : St) : Prop :=
  ∀ t ∈ st.payment_transactions, 0 < t.reports_credited → t.payment_status = "paid"

def getBalance (st : St) (uid : String) : Int :=
  match findUser st uid with
  | some u => u.available_reports
  | none => 0

def countAnalysesFor (st : St) (pid : String) : Nat :=
  (st.analyses.filter (fun a => a.property_id == pid)).length

/-! ### Concrete fixtures used by the counterexamples and witnesses -/

/-- External outcomes of a fully successful run: both LLM calls return
strict JSON; the empty payload renders (every guarded PDF section is
skipped as falsy). -/
def extOk : AnalysisExternals :=
  { parseCall := LlmCall.strictJson [], genCall := LlmCall.strictJson [] }

/-- External outcomes where the Analysis Generator step fails: its
awaited call raises. -/
def extFail : AnalysisExternals :=
  { parseCall := LlmCall.strictJson [("address", JVal.str "1 Main St")],
    genCall := LlmCall.raises "APIError: connection reset" }

/-- One user who has completed a checkout for `bundle_5` (session
`cs_1`) that Stripe has since marked paid, but which no observer has
reconciled yet: balance 0, `reports_credited` 0, local status pending. -/
def raceSt : St :=
  { users := [{ id := "u1", email := "a@x.com", name := "Alice", available_reports := 0 }],
    properties := [],
    analyses := [],
    payment_transactions :=
      [{ id := "t1", user_id := "u1", session_id := "cs_1", package_id := "bundle_5",
         amount := 2250, currency := "usd", payment_status := "pending",
         reports_credited := 0 }] }

/-- The transaction snapshot the status poll reads out of `raceSt`. -/
def raceSnap : Txn :=
  { id := "t1", user_id := "u1", session_id := "cs_1", package_id := "bundle_5",
    amount := 2250, currency := "usd", payment_status := "pending",
    reports_credited := 0 }

/-- The interleaved schedule: the poll reads its snapshot from `raceSt`
and suspends on the Stripe status call; the webhook for the same session
runs to completion in that window; the poll then resumes (`pollCommit`)
against the webhook's final state, still deciding from its stale
snapshot. -/
def raceFinal : St :=
  (pollCommit (stripe_webhook raceSt { session_id := "cs_1", payment_status := "paid" }).2
    "u1" "cs_1" raceSnap { status := "complete", payment_status := "paid" }).2

/-- A user holding exactly one credit who owns two uploaded properties. -/
def negSt : St :=
  { users := [{ id := "u1", email := "a@x.com", name := "Alice", available_reports := 1 }],
    properties :=
      [{ id := "p1", user_id := "u1", property_name := "Duplex on Oak",
         property_type := "off_market", status := "uploaded" },
       { id := "p2", user_id := "u1", property_name := "Triplex on Elm",
         property_type := "mls", status := "uploaded" }],
    analyses := [],
    payment_transactions := [] }

/-- The property snapshot the second concurrent request reads from
`negSt`. -/
def negP2 : PropertyRec :=
  { id := "p2", user_id := "u1", property_name := "Triplex on Elm",
    property_type := "mls", status := "uploaded" }

/-- A user with three credits and one uploaded property, nothing
analysed yet. -/
def c3St : St :=
  { users := [{ id := "u1", email := "a@x.com", name := "Alice", available_reports := 3 }],
    properties :=
      [{ id := "p1", user_id := "u1", property_name := "Duplex on Oak",
         property_type := "off_market", status := "uploaded" }],
    analyses := [],
    payment_transactions := [] }

/-- A user with a single credit and one uploaded property. -/
def c5St : St :=
  { users := [{ id := "u1", email := "a@x.com", name := "Alice", available_reports := 1 }],
    properties :=
      [{ id := "p1", user_id := "u1", property_name := "Duplex on Oak",
         property_type := "off_market", status := "uploaded" }],
    analyses := [],
    payment_transactions := [] }

/-- A user with two credits and one uploaded property (both sequential
requests pass the balance gate). -/
def c5WSt : St :=
  { users := [{ id := "u1", email := "a@x.com", name := "Alice", available_reports := 2 }],
    properties :=
      [{ id := "p1", user_id := "u1", property_name := "Duplex on Oak",
         property_type := "off_market", status := "uploaded" }],
    analyses := [],
    payment_transactions := [] }

/-- A state holding one pending, uncredited transaction `cs_2` owned by
`u1`. -/
def c8St : St :=
  { users := [{ id := "u1", email := "a@x.com", name := "Alice", available_reports := 0 }],
    properties := [],
    analyses := [],
    payment_transactions :=
      [{ id := "t2", user_id := "u1", session_id := "cs_2", package_id := "single",
         amount := 499, currency := "usd", payment_status := "pending",
         reports_credited := 0 }] }

/-- The pending transaction stored in `c8St`. -/
def c8Txn : Txn :=
  { id := "t2", user_id := "u1", session_id := "cs_2", package_id := "single",
    amount := 499, currency := "usd", payment_status := "pending",
    reports_credited := 0 }

/-- Register, buy `bundle_5` (session `cs_1`), and let the webhook
reconcile the paid session. -/
def c7Ops : List Op :=
  [Op.reg "u1" "a@x.com" "Alice",
   Op.checkout "u1" "bundle_5" "t1" "cs_1",
   Op.webhook { session_id := "cs_1", payment_status := "paid" }]

def c7St : St := runOps emptySt c7Ops

/-- The credited transaction `c7St` holds. -/
def c7Txn : Txn :=
  { id := "t1", user_id := "u1", session_id := "cs_1", package_id := "bundle_5",
    amount := 2250, currency := "usd", payment_status := "paid",
    reports_credited := 5 }

/-- A request trace exercising every balance-mutating endpoint
sequentially. -/
def seqOps : List Op :=
  [Op.reg "u2" "b@x.com" "Bob",
   Op.checkout "u2" "single" "t9" "cs_9",
   Op.poll "u2" "cs_9" { status := "complete", payment_status := "paid" },
   Op.upload "u2" "p9" "Bungalow" "mls",
   Op.analyze "u2" "p9" "a9" extOk,
   Op.webhook { session_id := "cs_9", payment_status := "paid" }]

/-! ### Helper lemmas -/

@[simp]
theorem setAnalysis_users (st : St) (aid : String) (f : Analysis → Analysis) :
    (setAnalysis st aid f).users = st.users := rfl

@[simp]
theorem setAnalysis_properties (st : St) (aid : String) (f : Analysis → Analysis) :
    (setAnalysis st aid f).properties = st.properties := rfl

@[simp]
theorem setAnalysis_txns (st : St) (aid : String) (f : Analysis → Analysis) :
    (setAnalysis st aid f).payment_transactions = st.payment_transactions := rfl

@[simp]
theorem incReports_analyses (st : St) (uid : String) (d : Int) :
    (incReports st uid d).analyses = st.analyses := rfl

@[simp]
theorem incReports_properties (st : St) (uid : String) (d : Int) :
    (incReports st uid d).properties = st.properties := rfl

@[simp]
theorem incReports_txns (st : St) (uid : String) (d : Int) :
    (incReports st uid d).payment_transactions = st.payment_transactions := rfl

@[simp]
theorem markCredited_users (st : St) (sid : String) (n : Nat) :
    (markCredited st sid n).users = st.users := rfl

@[simp]
theorem markCredited_properties (st : St) (sid : String) (n : Nat) :
    (markCredited st sid n).properties = st.properties := rfl

@[simp]
theorem markCredited_analyses (st : St) (sid : String) (n : Nat) :
    (markCredited st sid n).analyses = st.analyses := rfl

theorem find?_append_of_all_false {α : Type} (p : α → Bool) (l1 l2 : List α)
    (h : ∀ x ∈ l1, p x = false) : (l1 ++ l2).find? p = l2.find? p := by
  induction l1 with
  | nil => simp
  | cons x xs ih =>
      have hx := h x (by simp)
      simp only [List.cons_append, List.find?, hx]
      exact ih (fun y hy => h y (by simp [hy]))

/-- Mongo `update_one` on a list whose only match is the freshly
appended document rewrites exactly that document. -/
theorem updateFirst_append_single {α : Type} (p : α → Bool) (f : α → α) (l : List α) (d : α)
    (h : ∀ x ∈ l, p x = false) (hd : p d = true) :
    updateFirst p f (l ++ [d]) = l ++ [f d] := by
  induction l with
  | nil => simp [updateFirst, hd]
  | cons x xs ih =>
      have hx := h x (by simp)
      simp only [List.cons_append, updateFirst, hx, Bool.false_eq_true, if_false,
        List.cons.injEq, true_and]
      exact ih (fun y hy => h y (by simp [hy]))

/-- `update_one` preserves a per-document property when the rewrite
does. -/
theorem updateFirst_forall {α : Type} (P : α → Prop) (p : α → Bool) (f : α → α)
    (l : List α) (h : ∀ x ∈ l, P x) (hf : ∀ x ∈ l, p x = true → P (f x)) :
    ∀ x ∈ updateFirst p f l, P x := by
  induction l with
  | nil => simp [updateFirst]
  | cons y ys ih =>
      intro x hx
      simp only [updateFirst] at hx
      by_cases hy : p y = true
      · rw [if_pos hy] at hx
        rcases List.mem_cons.mp hx with rfl | hx
        · exact hf y (by simp) hy
        · exact h x (by simp [hx])
      · rw [if_neg hy] at hx
        rcases List.mem_cons.mp hx with rfl | hx
        · exact h x (by simp)
        · exact ih (fun z hz => h z (by simp [hz])) (fun z hz => hf z (by simp [hz])) x hx

/-- `update_one` preserves a per-document property when the document it
rewrites is the one `find_one` returned and the rewrite of that one
document preserves it. -/
theorem updateFirst_forall_of_find? {α : Type} (P : α → Prop) (p : α → Bool) (f : α → α)
    (l : List α) (a : α) (ha : l.find? p = some a) (h : ∀ x ∈ l, P x) (hfa : P (f a)) :
    ∀ x ∈ updateFirst p f l, P x := by
  induction l with
  | nil => simp [updateFirst]
  | cons y ys ih =>
      intro x hx
      simp only [updateFirst] at hx
      by_cases hy : p y = true
      · rw [List.find?_cons_of_pos _ hy] at ha
        rw [if_pos hy] at hx
        rcases List.mem_cons.mp hx with rfl | hx
        · exact (Option.some.injEq _ _ ▸ ha : y = a) ▸ hfa
        · exact h x (by simp [hx])
      · rw [List.find?_cons_of_neg _ (by simpa using hy)] at ha
        rw [if_neg hy] at hx
        rcases List.mem_cons.mp hx with rfl | hx
        · exact h x (by simp)
        · exact ih ha (fun z hz => h z (by simp [hz])) x hx

/-- After `update_one` rewrites the document `find_one` returned,
`find_one` returns the rewritten document (when the rewrite keeps the
document matching the filter). -/
theorem updateFirst_find? {α : Type} (p : α → Bool) (f : α → α) (l : List α) (a : α)
    (ha : l.find? p = some a) (hp : p (f a) = true) :
    (updateFirst p f l).find? p = some (f a) := by
  induction l with
  | nil => simp [List.find?] at ha
  | cons y ys ih =>
      by_cases hy : p y = true
      · rw [List.find?_cons_of_pos _ hy] at ha
        have hya : y = a := by simpa using ha
        subst hya
        simp only [updateFirst, if_pos hy]
        exact List.find?_cons_of_pos _ hp
      · rw [List.find?_cons_of_neg _ (by simpa using hy)] at ha
        simp only [updateFirst, if_neg hy]
        rw [List.find?_cons_of_neg _ (by simpa using hy)]
        exact ih ha

theorem getBalance_eq (st : St) (uid : String) (u : UserRec)
    (hu : findUser st uid = some u) : getBalance st uid = u.available_reports := by
  simp [getBalance, hu]

/-- The unconditional `$inc` moves exactly the balance of the document
`find_one` would return. -/
theorem findUser_incReports (st : St) (uid : String) (d : Int) (u : UserRec)
    (hu : findUser st uid = some u) :
    findUser (incReports st uid d) uid =
      some { u with available_reports := u.available_reports + d } := by
  simp only [findUser] at hu ⊢
  have hpu := List.find?_some hu
  exact updateFirst_find? _ _ st.users u hu hpu

theorem getBalance_incReports (st : St) (uid : String) (d : Int) (u : UserRec)
    (hu : findUser st uid = some u) :
    getBalance (incReports st uid d) uid = u.available_reports + d := by
  simp [getBalance, findUser_incReports st uid d u hu]

/-- Shape of `analysisChecks` when the gates pass: it hands back the
existing-analysis lookup and the property snapshot. -/
theorem analysisChecks_eq (st : St) (uid pid : String) (u : UserRec) (prop : PropertyRec)
    (hu : findUser st uid = some u) (hbal : 0 < u.available_reports)
    (hp : findProperty st uid pid = some prop) :
    analysisChecks st uid pid = Except.ok (findAnalysisByProperty st pid, prop) := by
  simp only [analysisChecks, hu, hp]
  rw [if_neg (by omega)]

/-- A successful check phase implies the requesting user exists with a
positive balance. -/
theorem analysisChecks_ok_balance (st : St) (uid pid : String)
    (pr : Option Analysis × PropertyRec) (hc : analysisChecks st uid pid = Except.ok pr) :
    ∃ u, findUser st uid = some u ∧ 0 < u.available_reports := by
  unfold analysisChecks at hc
  split at hc
  · cases hc
  · rename_i u heq
    split at hc
    · cases hc
    · rename_i hb
      exact ⟨u, heq, by omega⟩

/-- The write phase touches the `users` collection only through the
single debit of the completed branch. -/
theorem analysisRun_users (st : St) (uid pid aid pname : String) (ext : AnalysisExternals) :
    (analysisRun st uid pid aid pname ext).2.users = st.users ∨
    (analysisRun st uid pid aid pname ext).2.users =
      updateFirst (fun v : UserRec => v.id == uid)
        (fun v => { v with available_reports := v.available_reports + (-1) }) st.users := by
  simp only [analysisRun]
  split
  · right; rfl
  · left; rfl

theorem analysisRun_txns (st : St) (uid pid aid pname : String) (ext : AnalysisExternals) :
    (analysisRun st uid pid aid pname ext).2.payment_transactions =
      st.payment_transactions := by
  simp only [analysisRun]
  split
  · rfl
  · rfl

theorem analysisRun_properties (st : St) (uid pid aid pname : String)
    (ext : AnalysisExternals) :
    (analysisRun st uid pid aid pname ext).2.properties = st.properties := by
  simp only [analysisRun]
  split
  · rfl
  · rfl

theorem nonNeg_analyze (st : St) (uid pid aid : String) (ext : AnalysisExternals)
    (h : nonNeg st) : nonNeg (generate_property_analysis st uid pid aid ext).2 := by
  unfold generate_property_analysis
  cases hc : analysisChecks st uid pid with
  | error e => exact h
  | ok pr =>
      obtain ⟨oa, prop⟩ := pr
      cases oa with
      | some ex => exact h
      | none =>
          obtain ⟨u, hu, hpos⟩ := analysisChecks_ok_balance st uid pid _ hc
          show nonNeg (analysisRun st uid pid aid prop.property_name ext).2
          rcases analysisRun_users st uid pid aid prop.property_name ext with heq | heq
          · intro x hx; rw [heq] at hx; exact h x hx
          · intro x hx
            rw [heq] at hx
            refine updateFirst_forall_of_find? (fun v : UserRec => 0 ≤ v.available_reports)
              _ _ st.users u ?_ h ?_ x hx
            · simpa [findUser] using hu
            · show (0:Int) ≤ u.available_reports + (-1)
              omega

theorem nonNeg_pollCommit (st : St) (uid sid : String) (t : Txn) (cs : CheckoutStatus)
    (h : nonNeg st) : nonNeg (pollCommit st uid sid t cs).2 := by
  unfold pollCommit
  split
  · cases hpk : pkgLookup t.package_id with
    | none => exact h
    | some pkg =>
        intro x hx
        refine updateFirst_forall (fun v : UserRec => 0 ≤ v.available_reports) _ _
          (markCredited st sid pkg.reports).users ?_ ?_ x hx
        · intro v hv
          rw [markCredited_users] at hv
          exact h v hv
        · intro v hv _
          show (0:Int) ≤ v.available_reports + (pkg.reports : Int)
          rw [markCredited_users] at hv
          have := h v hv
          have hn : (0:Int) ≤ (pkg.reports : Int) := Int.natCast_nonneg _
          omega
  · exact h

theorem nonNeg_poll (st : St) (uid sid : String) (cs : CheckoutStatus)
    (h : nonNeg st) : nonNeg (get_payment_status st uid sid cs).2 := by
  unfold get_payment_status
  split
  · exact h
  · rename_i t hf
    split
    · exact h
    · exact nonNeg_pollCommit st uid sid t cs h

theorem nonNeg_webhookCommit (st : St) (sid : String) (h : nonNeg st) :
    nonNeg (webhookCommit st sid).2 := by
  unfold webhookCommit
  split
  · rename_i t hf
    split
    · split
      · exact h
      · rename_i pkg hpk
        intro x hx
        refine updateFirst_forall (fun v : UserRec => 0 ≤ v.available_reports) _ _
          (markCredited st sid pkg.reports).users ?_ ?_ x hx
        · intro v hv
          rw [markCredited_users] at hv
          exact h v hv
        · intro v hv _
          show (0:Int) ≤ v.available_reports + (pkg.reports : Int)
          rw [markCredited_users] at hv
          have := h v hv
          have hn : (0:Int) ≤ (pkg.reports : Int) := Int.natCast_nonneg _
          omega
    · exact h
  · exact h

theorem nonNeg_webhook (st : St) (ev : WebhookEvent) (h : nonNeg st) :
    nonNeg (stripe_webhook st ev).2 := by
  unfold stripe_webhook
  split
  · have hc := nonNeg_webhookCommit st ev.session_id h
    cases hwc : webhookCommit st ev.session_id with
    | mk r st1 =>
        rw [hwc] at hc
        cases r with
        | none => exact hc
        | some e => exact hc
  · exact h

theorem nonNeg_applyOp (st : St) (op : Op) (h : nonNeg st) : nonNeg (applyOp st op) := by
  cases op with
  | reg uid e n =>
      show nonNeg (register st uid e n).2
      unfold register
      split
      · exact h
      · intro x hx
        rcases List.mem_append.mp hx with hx | hx
        · exact h x hx
        · simp only [List.mem_singleton] at hx
          subst hx
          exact le_refl 0
  | upload uid pid pn pt => exact fun x hx => h x hx
  | checkout uid pk ti si =>
      show nonNeg (create_checkout st uid pk ti si).2
      unfold create_checkout
      cases pkgLookup pk with
      | none => exact h
      | some pkg => exact fun x hx => h x hx
  | analyze uid pid aid ext => exact nonNeg_analyze st uid pid aid ext h
  | poll uid sid cs => exact nonNeg_poll st uid sid cs h
  | webhook ev => exact nonNeg_webhook st ev h

theorem analyze_txns (st : St) (uid pid aid : String) (ext : AnalysisExternals) :
    (generate_property_analysis st uid pid aid ext).2.payment_transactions =
      st.payment_transactions := by
  unfold generate_property_analysis
  split
  · rfl
  · rfl
  · exact analysisRun_txns st uid pid aid _ ext

theorem analyze_properties (st : St) (uid pid aid : String) (ext : AnalysisExternals) :
    (generate_property_analysis st uid pid aid ext).2.properties = st.properties := by
  unfold generate_property_analysis
  split
  · rfl
  · rfl
  · exact analysisRun_properties st uid pid aid _ ext

theorem invTx_markCredited (st : St) (sid : String) (n : Nat) (h : InvTx st) :
    InvTx (markCredited st sid n) := by
  intro t ht
  refine updateFirst_forall
    (fun x : Txn => 0 < x.reports_credited → x.payment_status = "paid") _ _
    st.payment_transactions h ?_ t ht
  intro x hx hpx _
  rfl

theorem invTx_pollCommit (st : St) (uid sid : String) (t : Txn) (cs : CheckoutStatus)
    (h : InvTx st) : InvTx (pollCommit st uid sid t cs).2 := by
  unfold pollCommit
  split
  · split
    · exact h
    · rename_i pkg hpk
      intro x hx
      rw [incReports_txns] at hx
      exact invTx_markCredited st sid pkg.reports h x hx
  · exact h

theorem invTx_poll (st : St) (uid sid : String) (cs : CheckoutStatus)
    (h : InvTx st) : InvTx (get_payment_status st uid sid cs).2 := by
  unfold get_payment_status
  split
  · exact h
  · rename_i t hf
    split
    · exact h
    · exact invTx_pollCommit st uid sid t cs h

theorem invTx_webhookCommit (st : St) (sid : String) (h : InvTx st) :
    InvTx (webhookCommit st sid).2 := by
  unfold webhookCommit
  split
  · rename_i t hf
    split
    · split
      · exact h
      · rename_i pkg hpk
        intro x hx
        rw [incReports_txns] at hx
        exact invTx_markCredited st sid pkg.reports h x hx
    · exact h
  · exact h

theorem invTx_webhook (st : St) (ev : WebhookEvent) (h : InvTx st) :
    InvTx (stripe_webhook st ev).2 := by
  unfold stripe_webhook
  split
  · have hc := invTx_webhookCommit st ev.session_id h
    cases hwc : webhookCommit st ev.session_id with
    | mk r st1 =>
        rw [hwc] at hc
        cases r with
        | none => exact hc
        | some e => exact hc
  · exact h

theorem invTx_applyOp (st : St) (op : Op) (h : InvTx st) : InvTx (applyOp st op) := by
  cases op with
  | reg uid e n =>
      show InvTx (register st uid e n).2
      unfold register
      split
      · exact h
      · exact fun t ht => h t ht
  | upload uid pid pn pt => exact fun t ht => h t ht
  | checkout uid pk ti si =>
      show InvTx (create_checkout st uid pk ti si).2
      unfold create_checkout
      split
      · exact h
      · intro t ht
        rcases List.mem_append.mp ht with ht | ht
        · exact h t ht
        · simp only [List.mem_singleton] at ht
          subst ht
          intro h0
          simp at h0
  | analyze uid pid aid ext =>
      intro t ht
      rw [show (applyOp st (Op.analyze uid pid aid ext)).payment_transactions =
            st.payment_transactions from analyze_txns st uid pid aid ext] at ht
      exact h t ht
  | poll uid sid cs => exact invTx_poll st uid sid cs h
  | webhook ev => exact invTx_webhook st ev h

theorem invTx_runOps (ops : List Op) (st : St) (h : InvTx st) : InvTx (runOps st ops) := by
  induction ops generalizing st with
  | nil => exact h
  | cons op rest ih => exact ih (applyOp st op) (invTx_applyOp st op h)

/-- Every state the system can reach keeps credited transactions marked
paid, because the two fields are always written together in one `$set`. -/
theorem reachable_invTx (st : St) (h : Reachable st) : InvTx st := by
  obtain ⟨ops, rfl⟩ := h
  refine invTx_runOps ops emptySt ?_
  intro t ht
  cases ht

@[simp]
theorem setAnalysis_analyses (st : St) (aid : String) (f : Analysis → Analysis) :
    (setAnalysis st aid f).analyses =
      updateFirst (fun a => a.id == aid) f st.analyses := rfl

/-- What one fresh write phase does to the `analyses` collection and the
`users` collection: it appends exactly one document, carrying the drawn
uuid and the property id, whose terminal status decides whether the
single debit happened. -/
theorem analysisRun_spec (st : St) (uid pid aid pname : String) (ext : AnalysisExternals)
    (hfresh : st.analyses.find? (fun a => a.id == aid) = none) :
    ∃ a : Analysis,
      a.id = aid ∧ a.property_id = pid ∧
      (analysisRun st uid pid aid pname ext).1 =
        { analysis_id := aid, status := "generating" } ∧
      (analysisRun st uid pid aid pname ext).2.analyses = st.analyses ++ [a] ∧
      ((a.status = "completed" ∧
          (analysisRun st uid pid aid pname ext).2.users =
            updateFirst (fun v : UserRec => v.id == uid)
              (fun v => { v with available_reports := v.available_reports + (-1) })
              st.users) ∨
        (a.status = "failed" ∧
          (analysisRun st uid pid aid pname ext).2.users = st.users)) := by
  have hall : ∀ x ∈ st.analyses, (x.id == aid) = false := by
    intro x hx
    simpa using List.find?_eq_none.mp hfresh x hx
  have hself : ((aid : String) == aid) = true := beq_self_eq_true aid
  simp only [analysisRun]
  cases hpdf : generate_pdf_report aid (generate_analysis ext.genCall) with
  | ok pdf =>
      refine ⟨{ id := aid, user_id := uid, property_id := pid, property_name := pname,
                analysis_data := generate_analysis ext.genCall, pdf_path := some pdf,
                status := "completed" }, rfl, rfl, rfl, ?_, Or.inl ⟨rfl, rfl⟩⟩
      show updateFirst (fun a => a.id == aid) _
          (updateFirst (fun a => a.id == aid) _ (st.analyses ++ [_])) = _
      rw [updateFirst_append_single _ _ st.analyses _ hall hself,
        updateFirst_append_single _ _ st.analyses _ hall hself]
  | error e =>
      refine ⟨{ id := aid, user_id := uid, property_id := pid, property_name := pname,
                analysis_data := [], pdf_path := none,
                status := "failed" }, rfl, rfl, rfl, ?_, Or.inr ⟨rfl, rfl⟩⟩
      show updateFirst (fun a => a.id == aid) _
          (updateFirst (fun a => a.id == aid) _ (st.analyses ++ [_])) = _
      rw [updateFirst_append_single _ _ st.analyses _ hall hself,
        updateFirst_append_single _ _ st.analyses _ hall hself]

/-- The create path of the endpoint, summarized: when all gates pass and
no analysis exists for the property yet, the endpoint replies
`generating` with the fresh uuid, appends exactly one analysis document
for the property, and debits exactly one credit if and only if that
document ended `completed`. -/
theorem generate_property_analysis_fresh (st : St) (uid pid aid : String)
    (ext : AnalysisExternals) (u : UserRec) (prop : PropertyRec)
    (hu : findUser st uid = some u) (hbal : 0 < u.available_reports)
    (hp : findProperty st uid pid = some prop)
    (hno : findAnalysisByProperty st pid = none)
    (hfresh : st.analyses.find? (fun a => a.id == aid) = none) :
    ∃ a : Analysis,
      a.id = aid ∧ a.property_id = pid ∧
      (generate_property_analysis st uid pid aid ext).1 =
        Except.ok { analysis_id := aid, status := "generating" } ∧
      (generate_property_analysis st uid pid aid ext).2.analyses =
        st.analyses ++ [a] ∧
      ((a.status = "completed" ∧
          getBalance (generate_property_analysis st uid pid aid ext).2 uid =
            u.available_reports - 1) ∨
        (a.status = "failed" ∧
          getBalance (generate_property_analysis st uid pid aid ext).2 uid =
            u.available_reports)) ∧
      (generate_property_analysis st uid pid aid ext).2.properties = st.properties ∧
      (generate_property_analysis st uid pid aid ext).2.payment_transactions =
        st.payment_transactions := by
  have hcheck := analysisChecks_eq st uid pid u prop hu hbal hp
  rw [hno] at hcheck
  have hprops := analyze_properties st uid pid aid ext
  have htxns := analyze_txns st uid pid aid ext
  obtain ⟨a, ha1, ha2, hr1, hr2, hcase⟩ :=
    analysisRun_spec st uid pid aid prop.property_name ext hfresh
  simp only [generate_property_analysis, hcheck] at hprops htxns ⊢
  refine ⟨a, ha1, ha2, by rw [hr1], hr2, ?_, hprops, htxns⟩
  rcases hcase with ⟨hstat, husers⟩ | ⟨hstat, husers⟩
  · refine Or.inl ⟨hstat, ?_⟩
    have hfind :
        findUser (analysisRun st uid pid aid prop.property_name ext).2 uid =
          some { u with available_reports := u.available_reports + (-1) } := by
      simp only [findUser] at hu ⊢
      rw [husers]
      have hpu := List.find?_some hu
      exact updateFirst_find? _ _ st.users u hu hpu
    simp only [getBalance, hfind]
    omega
  · refine Or.inr ⟨hstat, ?_⟩
    have hfind :
        findUser (analysisRun st uid pid aid prop.property_name ext).2 uid = some u := by
      simp only [findUser] at hu ⊢
      rw [husers]
      exact hu
    simp only [getBalance, hfind]

/-! ### The claims -/

/-- C1: the spec requires the paid transition to happen inside a single
atomic update guarded by a compare-and-set on `reports_credited == 0`,
so that a racing poll and webhook on one session credit exactly once.
The code has no such guard: the poll decides from the transaction
snapshot it read before its Stripe round trip, and both of its writes
filter on ids alone.  In the interleaving where the poll reads
`raceSnap` (not yet credited, so no short-circuit), the webhook then
reconciles session `cs_1` to completion, and the poll resumes
(`pollCommit`) on the webhook's final state, the user is credited
twice: the balance ends at 10, although `bundle_5` grants 5 and the
same two entry points run sequentially end at 5. -/
theorem poll_webhook_race_double_credits :
    findTxn raceSt "cs_1" "u1" = some raceSnap ∧
    ¬ (raceSnap.payment_status = "paid" ∧ 0 < raceSnap.reports_credited) ∧
    getBalance (applyOp (applyOp raceSt
      (Op.webhook { session_id := "cs_1", payment_status := "paid" }))
      (Op.poll "u1" "cs_1" { status := "complete", payment_status := "paid" })) "u1" = 5 ∧
    getBalance raceFinal "u1" = 10 :=
  ⟨rfl, by decide, rfl, rfl⟩

/-- C2 (counterexample): with one credit and two properties, two
interleaved analysis requests by the same user both pass the advisory
balance gate — the second request's check phase (`analysisChecks`) runs
against `negSt` before the first request writes anything.  Both
pipelines then complete and each applies the unconditional debit,
driving the balance from 1 to -1, so the never-negative claim fails
under concurrency. -/
theorem concurrent_analyses_drive_balance_negative :
    getBalance negSt "u1" = 1 ∧
    analysisChecks negSt "u1" "p2" = Except.ok (none, negP2) ∧
    getBalance
      ((analysisRun (generate_property_analysis negSt "u1" "p1" "a1" extOk).2
        "u1" "p2" "a2" negP2.property_name extOk).2) "u1" = -1 :=
  ⟨rfl, rfl, rfl⟩

/-- C2 (amended): under SEQUENTIAL execution of any sequence of
requests, `available_reports` never goes negative — the only writes to
it are the analysis debit, which only fires after a positive-balance
gate in the very same request, and the non-negative payment credits.
The unamended concurrent form is false: the debit is an unconditional
decrement, so interleaved requests sharing one credit overdraw (see the
counterexample). -/
theorem sequential_ops_preserve_nonneg_balance (ops : List Op) (st : St)
    (h : nonNeg st) : nonNeg (runOps st ops) := by
  induction ops generalizing st with
  | nil => exact h
  | cons op rest ih => exact ih (applyOp st op) (nonNeg_applyOp st op h)

/-- Witness for the amended C2 theorem on a concrete trace touching
every balance-mutating endpoint. -/
theorem sequential_ops_preserve_nonneg_balance_witness :
    nonNeg negSt ∧ nonNeg (runOps negSt seqOps) :=
  ⟨by unfold nonNeg; decide,
   sequential_ops_preserve_nonneg_balance seqOps negSt (by unfold nonNeg; decide)⟩

/-- C3: the claim says a failing Analysis Generator step ends the
report in `failed` with the balance unchanged.  In the code,
`generate_analysis` swallows the exception of its external call into an
error payload, `generate_pdf_report` renders that payload without
complaint (every guarded section is falsy), and the pipeline finishes
normally: on the concrete run where the generator call raises, the
persisted report is `completed` carrying only the error payload, and
the balance drops from 3 to 2 — the user is debited for a report that
contains no analysis. -/
theorem generator_failure_completes_and_debits :
    (generate_property_analysis c3St "u1" "p1" "a1" extFail).1 =
      Except.ok { analysis_id := "a1", status := "generating" } ∧
    (findAnalysisById (generate_property_analysis c3St "u1" "p1" "a1" extFail).2
      "a1").map Analysis.status = some "completed" ∧
    (findAnalysisById (generate_property_analysis c3St "u1" "p1" "a1" extFail).2
      "a1").map Analysis.analysis_data =
        some [("error", JVal.str "APIError: connection reset")] ∧
    getBalance (generate_property_analysis c3St "u1" "p1" "a1" extFail).2 "u1" = 2 :=
  ⟨rfl, rfl, rfl, rfl⟩

/-- C4 (counterexample): a webhook for a session id with no local
Payment Transaction does NOT fail with TransactionNotFound — the
missing transaction is silently skipped and the endpoint acks success,
refuting the claim for the webhook entry point. -/
theorem webhook_unknown_session_returns_success :
    stripe_webhook emptySt { session_id := "cs_unknown", payment_status := "paid" } =
      (WebhookResp.success, emptySt) := rfl

/-- C4 (amended): for a session id with no local transaction, the
user-initiated status poll fails with TransactionNotFound and mutates
nothing; the webhook also mutates nothing, but instead of failing it
returns the fixed success acknowledgement. -/
theorem unknown_session_poll_404_webhook_ack (st : St) (sid : String)
    (h : ∀ t ∈ st.payment_transactions, t.session_id ≠ sid) :
    (∀ (uid : String) (cs : CheckoutStatus), get_payment_status st uid sid cs =
      (Except.error ApiErr.transactionNotFound, st)) ∧
    (∀ ps, stripe_webhook st { session_id := sid, payment_status := ps } =
      (WebhookResp.success, st)) := by
  have hnone : findTxnBySession st sid = none := by
    unfold findTxnBySession
    refine List.find?_eq_none.mpr ?_
    intro t ht hc
    exact h t ht (beq_iff_eq.mp hc)
  constructor
  · intro uid cs
    have hn : findTxn st sid uid = none := by
      unfold findTxn
      refine List.find?_eq_none.mpr ?_
      intro t ht hc
      rcases Bool.and_eq_true_iff.mp hc with ⟨h1, _⟩
      exact h t ht (beq_iff_eq.mp h1)
    simp only [get_payment_status, hn]
  · intro ps
    simp only [stripe_webhook, webhookCommit, hnone]
    split
    · rfl
    · rfl

/-- Witness for the amended C4 theorem: both entry points on a session
id absent from a state with an empty transaction collection. -/
theorem unknown_session_poll_404_webhook_ack_witness :
    (∀ t ∈ negSt.payment_transactions, t.session_id ≠ "cs_q") ∧
    get_payment_status negSt "u1" "cs_q" { status := "open", payment_status := "unpaid" } =
      (Except.error ApiErr.transactionNotFound, negSt) ∧
    stripe_webhook negSt { session_id := "cs_q", payment_status := "paid" } =
      (WebhookResp.success, negSt) :=
  ⟨by decide,
   (unknown_session_poll_404_webhook_ack negSt "cs_q" (by decide)).1 "u1"
     { status := "open", payment_status := "unpaid" },
   (unknown_session_poll_404_webhook_ack negSt "cs_q" (by decide)).2 "paid"⟩

/-- C5 (counterexample): the balance gate runs BEFORE the idempotency
lookup, so the claim fails as universally stated: a user holding one
credit has it debited by the first (successful) request, and the second
request for the same property is rejected with the no-credits error
instead of returning the existing report id. -/
theorem second_request_rejected_after_last_credit_spent :
    (generate_property_analysis c5St "u1" "p1" "a1" extOk).1 =
      Except.ok { analysis_id := "a1", status := "generating" } ∧
    (generate_property_analysis
        (generate_property_analysis c5St "u1" "p1" "a1" extOk).2
        "u1" "p1" "a2" extOk).1 = Except.error ApiErr.noReportsAvailable :=
  ⟨rfl, rfl⟩

/-- C5 (amended): PROVIDED the user's balance is still positive when the
second request runs its gate, requesting analysis twice for one property
returns the same report id both times, the second request mutates
nothing, exactly one analysis document exists for the property, and at
most one credit was debited across both requests. -/
theorem repeat_request_returns_same_report (st : St) (uid pid aid1 aid2 : String)
    (ext1 ext2 : AnalysisExternals) (u : UserRec) (prop : PropertyRec)
    (hu : findUser st uid = some u) (hbal : 0 < u.available_reports)
    (hp : findProperty st uid pid = some prop)
    (hno : findAnalysisByProperty st pid = none)
    (hfresh : st.analyses.find? (fun a => a.id == aid1) = none)
    (hbal2 : 0 < getBalance (generate_property_analysis st uid pid aid1 ext1).2 uid) :
    (generate_property_analysis st uid pid aid1 ext1).1 =
      Except.ok { analysis_id := aid1, status := "generating" } ∧
    (∃ s, (generate_property_analysis
        (generate_property_analysis st uid pid aid1 ext1).2 uid pid aid2 ext2).1 =
      Except.ok { analysis_id := aid1, status := s }) ∧
    (generate_property_analysis
        (generate_property_analysis st uid pid aid1 ext1).2 uid pid aid2 ext2).2 =
      (generate_property_analysis st uid pid aid1 ext1).2 ∧
    countAnalysesFor
      (generate_property_analysis
        (generate_property_analysis st uid pid aid1 ext1).2 uid pid aid2 ext2).2 pid = 1 ∧
    u.available_reports - 1 ≤ getBalance
      (generate_property_analysis
        (generate_property_analysis st uid pid aid1 ext1).2 uid pid aid2 ext2).2 uid := by
  obtain ⟨a, ha1, ha2, hr1, hr2, hcase, hprops, htxns⟩ :=
    generate_property_analysis_fresh st uid pid aid1 ext1 u prop hu hbal hp hno hfresh
  set st1 := (generate_property_analysis st uid pid aid1 ext1).2 with hst1
  have hpa : (a.property_id == pid) = true := by
    rw [ha2]
    exact beq_self_eq_true pid
  have hnofalse : ∀ x ∈ st.analyses, ((fun a : Analysis => a.property_id == pid) x) = false := by
    intro x hx
    simpa using List.find?_eq_none.mp hno x hx
  have hfind1 : findAnalysisByProperty st1 pid = some a := by
    unfold findAnalysisByProperty
    rw [hr2, find?_append_of_all_false _ st.analyses [a] hnofalse]
    exact List.find?_cons_of_pos _ hpa
  obtain ⟨u1, hu1f, hu1pos⟩ :
      ∃ u1, findUser st1 uid = some u1 ∧ 0 < u1.available_reports := by
    cases hq : findUser st1 uid with
    | none =>
        exfalso
        simp only [getBalance, hq] at hbal2
        exact absurd hbal2 (by omega)
    | some u1 =>
        refine ⟨u1, rfl, ?_⟩
        simpa only [getBalance, hq] using hbal2
  have hp1 : findProperty st1 uid pid = some prop := by
    unfold findProperty at hp ⊢
    rw [hprops]
    exact hp
  have hcheck2 := analysisChecks_eq st1 uid pid u1 prop hu1f hu1pos hp1
  rw [hfind1] at hcheck2
  have hsecond : generate_property_analysis st1 uid pid aid2 ext2 =
      (Except.ok { analysis_id := a.id, status := a.status }, st1) := by
    unfold generate_property_analysis
    rw [hcheck2]
  have hnil : st.analyses.filter (fun a : Analysis => a.property_id == pid) = [] :=
    List.filter_eq_nil_iff.mpr (by
      intro x hx
      simpa using List.find?_eq_none.mp hno x hx)
  refine ⟨hr1, ⟨a.status, by rw [hsecond, ha1]⟩, by rw [hsecond], ?_, ?_⟩
  · rw [hsecond]
    unfold countAnalysesFor
    rw [hr2, List.filter_append, hnil, List.nil_append]
    simp [List.filter_cons, hpa]
  · rw [hsecond]
    rcases hcase with ⟨_, hbaleq⟩ | ⟨_, hbaleq⟩
    · rw [hbaleq]
    · rw [hbaleq]
      omega

/-- Witness for the amended C5 theorem: a user with two credits repeats
the request; the second reply carries the first request's id. -/
theorem repeat_request_returns_same_report_witness :
    0 < getBalance (generate_property_analysis c5WSt "u1" "p1" "a1" extOk).2 "u1" ∧
    ((generate_property_analysis c5WSt "u1" "p1" "a1" extOk).1 =
      Except.ok { analysis_id := "a1", status := "generating" } ∧
    (∃ s, (generate_property_analysis
        (generate_property_analysis c5WSt "u1" "p1" "a1" extOk).2 "u1" "p1" "a2" extOk).1 =
      Except.ok { analysis_id := "a1", status := s }) ∧
    (generate_property_analysis
        (generate_property_analysis c5WSt "u1" "p1" "a1" extOk).2 "u1" "p1" "a2" extOk).2 =
      (generate_property_analysis c5WSt "u1" "p1" "a1" extOk).2 ∧
    countAnalysesFor
      (generate_property_analysis
        (generate_property_analysis c5WSt "u1" "p1" "a1" extOk).2 "u1" "p1" "a2" extOk).2
      "p1" = 1 ∧
    (2:Int) - 1 ≤ getBalance
      (generate_property_analysis
        (generate_property_analysis c5WSt "u1" "p1" "a1" extOk).2 "u1" "p1" "a2" extOk).2
      "u1") :=
  ⟨by decide,
   repeat_request_returns_same_report c5WSt "u1" "p1" "a1" "a2" extOk extOk
     { id := "u1", email := "a@x.com", name := "Alice", available_reports := 2 }
     { id := "p1", user_id := "u1", property_name := "Duplex on Oak",
       property_type := "off_market", status := "uploaded" }
     rfl (by decide) rfl rfl rfl (by decide)⟩

/-- C6: a user whose balance is zero is rejected with the no-credits
error before anything is written: the response is the 403 and the state
is returned exactly as it was — no analysis document is created. -/
theorem zero_balance_rejected_unchanged (st : St) (uid pid aid : String)
    (ext : AnalysisExternals) (u : UserRec)
    (hu : findUser st uid = some u) (hz : u.available_reports = 0) :
    generate_property_analysis st uid pid aid ext =
      (Except.error ApiErr.noReportsAvailable, st) := by
  have hc : analysisChecks st uid pid = Except.error ApiErr.noReportsAvailable := by
    simp only [analysisChecks, hu]
    rw [if_pos (by omega)]
  unfold generate_property_analysis
  rw [hc]

/-- Witness for C6 at a concrete zero-balance user. -/
theorem zero_balance_rejected_unchanged_witness :
    findUser raceSt "u1" =
      some { id := "u1", email := "a@x.com", name := "Alice", available_reports := 0 } ∧
    generate_property_analysis raceSt "u1" "pX" "aX" extOk =
      (Except.error ApiErr.noReportsAvailable, raceSt) :=
  ⟨rfl, zero_balance_rejected_unchanged raceSt "u1" "pX" "aX" extOk
    { id := "u1", email := "a@x.com", name := "Alice", available_reports := 0 } rfl rfl⟩

/-- C7: on every reachable state, a transaction that is already
credited (`reports_credited > 0`) makes the status poll return the
cached credited state: the short-circuit fires (credited transactions
are always locally marked paid — an invariant of every reachable
state), the state is untouched, and the result is the same whatever the
provider would have answered (`cs` is arbitrary), i.e. no provider call
is consulted. -/
theorem credited_poll_short_circuits (st : St) (uid sid : String) (t : Txn)
    (hre : Reachable st) (ht : findTxn st sid uid = some t)
    (hrc : 0 < t.reports_credited) :
    ∀ cs, get_payment_status st uid sid cs =
      (Except.ok { status := "complete", payment_status := "paid",
                   reports_credited := some t.reports_credited }, st) := by
  intro cs
  have hinv := reachable_invTx st hre
  have hmem : t ∈ st.payment_transactions := by
    unfold findTxn at ht
    exact List.mem_of_find?_eq_some ht
  have hpaid : t.payment_status = "paid" := hinv t hmem hrc
  simp only [get_payment_status, ht]
  rw [if_pos ⟨hpaid, hrc⟩]

/-- Witness for C7: the state built by register, checkout and a paid
webhook; the poll returns the cached credit of 5 no matter what Stripe
would say. -/
theorem credited_poll_short_circuits_witness :
    findTxn c7St "cs_1" "u1" = some c7Txn ∧
    0 < c7Txn.reports_credited ∧
    get_payment_status c7St "u1" "cs_1" { status := "open", payment_status := "unpaid" } =
      (Except.ok { status := "complete", payment_status := "paid",
                   reports_credited := some c7Txn.reports_credited }, c7St) :=
  ⟨rfl, by decide,
   credited_poll_short_circuits c7St "u1" "cs_1" c7Txn ⟨c7Ops, rfl⟩ rfl (by decide)
     { status := "open", payment_status := "unpaid" }⟩

/-- C8 (counterexample): the webhook entry point does not return the
observed status to its caller: for the same stored session, a verified
event reporting `pending` and one reporting `failed` produce the
identical fixed success acknowledgement, which carries no status field
at all — so "the observed status is returned unchanged" is false for
the webhook (the no-mutation half does hold: the state comes back
untouched). -/
theorem webhook_response_ignores_observed_status :
    stripe_webhook c8St { session_id := "cs_2", payment_status := "pending" } =
      (WebhookResp.success, c8St) ∧
    stripe_webhook c8St { session_id := "cs_2", payment_status := "failed" } =
      (WebhookResp.success, c8St) :=
  ⟨rfl, rfl⟩

/-- C8 (amended): when the provider reports any status other than
`paid`, neither entry point mutates any state; the status poll returns
the observed status unchanged in its response body, while the webhook
returns the fixed success acknowledgement (it does not echo the
status). -/
theorem nonpaid_status_no_mutation (st : St) :
    (∀ (uid sid : String) (t : Txn) (cs : CheckoutStatus),
      findTxn st sid uid = some t →
      ¬ (t.payment_status = "paid" ∧ 0 < t.reports_credited) →
      cs.payment_status ≠ "paid" →
      get_payment_status st uid sid cs =
        (Except.ok { status := cs.status, payment_status := cs.payment_status,
                     reports_credited := none }, st)) ∧
    (∀ ev : WebhookEvent, ev.payment_status ≠ "paid" →
      stripe_webhook st ev = (WebhookResp.success, st)) := by
  constructor
  · intro uid sid t cs ht hsc hps
    simp only [get_payment_status, ht]
    rw [if_neg hsc]
    unfold pollCommit
    rw [if_neg (fun hand => hps hand.1)]
  · intro ev hps
    unfold stripe_webhook
    rw [if_neg hps]

/-- Witness for the amended C8 theorem: an unpaid answer for the stored
pending session leaves everything alone at both entry points. -/
theorem nonpaid_status_no_mutation_witness :
    findTxn c8St "cs_2" "u1" = some c8Txn ∧
    get_payment_status c8St "u1" "cs_2" { status := "open", payment_status := "unpaid" } =
      (Except.ok { status := "open", payment_status := "unpaid",
                   reports_credited := none }, c8St) ∧
    stripe_webhook c8St { session_id := "cs_2", payment_status := "unpaid" } =
      (WebhookResp.success, c8St) :=
  ⟨rfl,
   (nonpaid_status_no_mutation c8St).1 "u1" "cs_2" c8Txn
     { status := "open", payment_status := "unpaid" } rfl (by decide) (by decide),
   (nonpaid_status_no_mutation c8St).2 { session_id := "cs_2", payment_status := "unpaid" }
     (by decide)⟩

/-- C9: on the create path (all gates pass, no report exists yet, fresh
uuid) the endpoint runs the whole parse-generate-render-persist-debit
pipeline before replying: the HTTP response always reports
`generating`, while the document persisted by the time the response
exists is already terminal — `completed` with exactly one credit
debited, or `failed` with the balance untouched. -/
theorem analysis_response_always_generating (st : St) (uid pid aid : String)
    (ext : AnalysisExternals) (u : UserRec) (prop : PropertyRec)
    (hu : findUser st uid = some u) (hbal : 0 < u.available_reports)
    (hp : findProperty st uid pid = some prop)
    (hno : findAnalysisByProperty st pid = none)
    (hfresh : st.analyses.find? (fun a => a.id == aid) = none) :
    (generate_property_analysis st uid pid aid ext).1 =
      Except.ok { analysis_id := aid, status := "generating" } ∧
    ∃ a : Analysis,
      findAnalysisById (generate_property_analysis st uid pid aid ext).2 aid = some a ∧
      ((a.status = "completed" ∧
          getBalance (generate_property_analysis st uid pid aid ext).2 uid =
            u.available_reports - 1) ∨
        (a.status = "failed" ∧
          getBalance (generate_property_analysis st uid pid aid ext).2 uid =
            u.available_reports)) := by
  obtain ⟨a, ha1, _, hr1, hr2, hcase, _, _⟩ :=
    generate_property_analysis_fresh st uid pid aid ext u prop hu hbal hp hno hfresh
  refine ⟨hr1, a, ?_, hcase⟩
  have hall : ∀ x ∈ st.analyses, ((fun a : Analysis => a.id == aid) x) = false := by
    intro x hx
    simpa using List.find?_eq_none.mp hfresh x hx
  have hpa : (a.id == aid) = true := by
    rw [ha1]
    exact beq_self_eq_true aid
  unfold findAnalysisById
  rw [hr2, find?_append_of_all_false _ st.analyses [a] hall]
  exact List.find?_cons_of_pos _ hpa

/-- Witness for C9: a successful concrete run replies `generating`
while the stored report is already `completed` and the debit applied. -/
theorem analysis_response_always_generating_witness :
    findAnalysisByProperty c3St "p1" = none ∧
    ((generate_property_analysis c3St "u1" "p1" "a1" extOk).1 =
      Except.ok { analysis_id := "a1", status := "generating" } ∧
    ∃ a : Analysis,
      findAnalysisById (generate_property_analysis c3St "u1" "p1" "a1" extOk).2 "a1" =
        some a ∧
      ((a.status = "completed" ∧
          getBalance (generate_property_analysis c3St "u1" "p1" "a1" extOk).2 "u1" =
            (3:Int) - 1) ∨
        (a.status = "failed" ∧
          getBalance (generate_property_analysis c3St "u1" "p1" "a1" extOk).2 "u1" =
            (3:Int)))) :=
  ⟨rfl,
   analysis_response_always_generating c3St "u1" "p1" "a1" extOk
     { id := "u1", email := "a@x.com", name := "Alice", available_reports := 3 }
     { id := "p1", user_id := "u1", property_name := "Duplex on Oak",
       property_type := "off_market", status := "uploaded" }
     rfl (by decide) rfl rfl rfl⟩

/-- C10: the status poll's transaction lookup is scoped to the
requesting user, so a different user polling an existing session gets
TransactionNotFound and the state untouched, whatever the provider
would have answered. -/
theorem poll_other_user_not_found (st : St) (sid ua ub : String)
    (hown : ∀ t ∈ st.payment_transactions, t.session_id = sid → t.user_id = ua)
    (_hex : ∃ t ∈ st.payment_transactions, t.session_id = sid)
    (hne : ub ≠ ua) :
    ∀ cs, get_payment_status st ub sid cs =
      (Except.error ApiErr.transactionNotFound, st) := by
  intro cs
  have hnone : findTxn st sid ub = none := by
    unfold findTxn
    refine List.find?_eq_none.mpr ?_
    intro t ht hc
    rcases Bool.and_eq_true_iff.mp hc with ⟨h1, h2⟩
    have e1 : t.user_id = ub := beq_iff_eq.mp h2
    have e2 : t.user_id = ua := hown t ht (beq_iff_eq.mp h1)
    exact hne (e1.symm.trans e2)
  simp only [get_payment_status, hnone]

/-- Witness for C10: the session `cs_2` belongs to `u1`; `u2` polling
it gets the 404 even though the session exists. -/
theorem poll_other_user_not_found_witness :
    (∃ t ∈ c8St.payment_transactions, t.session_id = "cs_2") ∧
    get_payment_status c8St "u2" "cs_2" { status := "open", payment_status := "unpaid" } =
      (Except.error ApiErr.transactionNotFound, c8St) :=
  ⟨by decide,
   poll_other_user_not_found c8St "cs_2" "u1" "u2" (by decide) (by decide) (by decide)
     { status := "open", payment_status := "unpaid" }⟩
